import Mathlib

/-!
Verification of the resilient CRM synchronization subsystem of the
irelandpay-analytics-pulse repository: circuit breaker, retry wrapper,
transactional sink client, sync-manager rollback policy, incremental
(watermark/hash) sync, and the durable job queue.

Each definition is a shallow embedding of one Python function, translated
from the source file named in its doc comment.  Machine reals (Python
floats for timestamps and delays) are modelled as `ℚ`; Python exceptions
are modelled with `Except`/`Option` or explicit outcome types.
-/

namespace CRMSync

/-- Classification of a Python exception raised by a wrapped operation:
`RetryableError`, `FatalError`, or any other `Exception`. -/
inductive ErrKind
  | retryable
  | fatal
  | other
  deriving DecidableEq, Repr

/-- Outcome of one invocation of the wrapped operation: either it returns
normally or it raises an exception of the given kind. -/
inductive OpOutcome
  | ok
  | raise (k : ErrKind)
  deriving DecidableEq, Repr

/-- State of the `CircuitBreaker` singleton shared by both
`src/lib/irelandpay_crm_sync.py` and `src/lib/iriscrm_sync.py`:
`_failures`, `_is_open`, `_last_failure_time` (a Unix timestamp, `None`
before any failure). -/
structure CBState where
  failures : Nat
  isOpen : Bool
  lastFailureTime : Option ℚ
  deriving DecidableEq, Repr

/-- Initial class-level state: `_failures = 0`, `_is_open = False`,
`_last_failure_time = None`. -/
def cbInit : CBState := ⟨0, false, none⟩

/-- Default `IRELANDPAY_CIRCUIT_MAX_FAILURES` / `IRIS_CIRCUIT_MAX_FAILURES`. -/
def CIRCUIT_MAX_FAILURES : Nat := 5

/-- Default `IRELANDPAY_CIRCUIT_RESET_SECONDS` / `IRIS_CIRCUIT_RESET_SECONDS`. -/
def CIRCUIT_RESET_SECONDS : ℚ := 60

/-- Default `IRELANDPAY_MAX_RETRIES` / `IRIS_MAX_RETRIES`. -/
def MAX_RETRIES : Nat := 3

/-- `CircuitBreaker.record_failure` (identical in both lib modules, called at
time `t`): increment `_failures`, set `_last_failure_time`, and open the
circuit once the failure count reaches `maxFailures`. -/
def record_failure (maxFailures : Nat) (t : ℚ) (s : CBState) : CBState :=
  let s1 : CBState := { s with failures := s.failures + 1, lastFailureTime := some t }
  if maxFailures ≤ s1.failures then { s1 with isOpen := true } else s1

/-- `CircuitBreaker.record_success` (identical in both lib modules): reset
the failure count to 0 (a no-op when it is already 0); the open flag is NOT
touched. -/
def record_success (s : CBState) : CBState := { s with failures := 0 }

/-- `CircuitBreaker.is_open` from `src/lib/irelandpay_crm_sync.py`
(lines 161-173), checked at time `t`.  The reset test is
`if self._last_failure_time and (time.time() - self._last_failure_time) >
CIRCUIT_RESET_SECONDS`: Python truthiness makes a stored timestamp of `0`
falsy, and the elapsed-time comparison is strict `>`.  Returns the reported
open flag together with the (possibly reset) state. -/
def ip_is_open (resetSecs t : ℚ) (s : CBState) : Bool × CBState :=
  if s.isOpen = false then (false, s)
  else
    match s.lastFailureTime with
    | some lf =>
        if lf ≠ 0 ∧ resetSecs < t - lf then
          (false, { s with isOpen := false, failures := 0 })
        else (true, s)
    | none => (true, s)

/-- `CircuitBreaker.is_open` from `src/lib/iriscrm_sync.py` (lines 161-179),
checked at time `t`: the guard is `if self._is_open and
self._last_failure_time is not None`, and the reset test is
`elapsed_time >= CIRCUIT_RESET_SECONDS` (non-strict); it then returns the
(possibly reset) `_is_open` flag. -/
def iris_is_open (resetSecs t : ℚ) (s : CBState) : Bool × CBState :=
  match s.lastFailureTime with
  | some lf =>
      if s.isOpen = true ∧ resetSecs ≤ t - lf then
        (false, { s with isOpen := false, failures := 0 })
      else (s.isOpen, s)
  | none => (s.isOpen, s)

/-- States of the iriscrm `CircuitBreaker` reachable from the initial
class-level state through its public methods (`record_failure` with the
default threshold, `record_success`, and the state effect of `is_open`
with the default reset timeout), invoked at arbitrary times. -/
inductive CBReachable : CBState → Prop
  | init : CBReachable cbInit
  | fail (t : ℚ) (s : CBState) :
      CBReachable s → CBReachable (record_failure CIRCUIT_MAX_FAILURES t s)
  | succ (s : CBState) : CBReachable s → CBReachable (record_success s)
  | check (t : ℚ) (s : CBState) :
      CBReachable s → CBReachable (iris_is_open CIRCUIT_RESET_SECONDS t s).2

/-- The breaker state produced by five `record_failure` calls at time 1
(enough to open the circuit at the default threshold) followed by one
`record_success`. -/
def cbAfterFiveFailuresThenSuccess : CBState :=
  record_success
    (record_failure CIRCUIT_MAX_FAILURES 1
      (record_failure CIRCUIT_MAX_FAILURES 1
        (record_failure CIRCUIT_MAX_FAILURES 1
          (record_failure CIRCUIT_MAX_FAILURES 1
            (record_failure CIRCUIT_MAX_FAILURES 1 cbInit)))))

/-- The structured failure dictionary `{"success": False, "error": ...,
"details": ...}` returned by the resilience wrappers when an operation
cannot be completed. -/
structure FailureDict where
  success : Bool
  error : String
  details : String
  deriving DecidableEq, Repr

/-- Result of a call to `_execute_with_resilience`: either the wrapped
operation's return value (abstracted as `ok`) or a failure dictionary. -/
inductive WrapResult
  | ok
  | failure (d : FailureDict)
  deriving DecidableEq, Repr

/-- Exception escaping the tenacity-decorated inner function: either a
`tenacity.RetryError` (retries exhausted, no `reraise`) or a propagated
underlying exception of kind `k`. -/
inductive RetryExc
  | retryError
  | exc (k : ErrKind)
  deriving DecidableEq, Repr

/-- One protected call in `CircuitBreaker.execute`
(`src/lib/irelandpay_crm_sync.py` lines 176-209) at time `t`, given the
outcome `outc` the operation would produce if invoked: if `is_open()` the
call raises `RetryableError` without invoking the operation; otherwise the
operation runs and a normal return triggers `circuit.record_success()`.
On a non-fatal exception the handler executes line 208,
`cls.record_failure()` — but `record_failure` is an INSTANCE method called
on the class with no arguments, so this call raises
`TypeError: record_failure() missing 1 required positional argument`
before mutating any state: the original exception is replaced by a
`TypeError` (kind `other`, never retryable) and the failure counter is
never incremented.  A `FatalError` skips line 208 and is re-raised
unchanged.  The unused `maxFailures` parameter is kept to record that the
intended `record_failure` update is unreachable from this wrapper. -/
def CircuitBreaker_execute (maxFailures : Nat) (resetSecs t : ℚ)
    (outc : OpOutcome) (s : CBState) : Except ErrKind Unit × CBState × Bool :=
  let _ := maxFailures
  let chk := ip_is_open resetSecs t s
  if chk.1 then (Except.error ErrKind.retryable, chk.2, false)
  else
    match outc with
    | OpOutcome.ok => (Except.ok (), record_success chk.2, true)
    | OpOutcome.raise k =>
        if k = ErrKind.fatal then (Except.error k, chk.2, true)
        else (Except.error ErrKind.other, chk.2, true)

/-- The tenacity retry loop produced by
`@retry(stop=stop_after_attempt(MAX_RETRIES),
retry=retry_if_exception_type(RetryableError))` around
`CircuitBreaker.execute` in
`IrelandPayCRMSyncManager._execute_with_resilience`
(`src/lib/irelandpay_crm_sync.py` lines 260-269).  tenacity semantics:
attempt numbers start at 1, the first attempt always runs,
`stop_after_attempt(n)` stops once `attempt_number >= n` (so `n` TOTAL
attempts), only `RetryableError` is retried, and exhaustion raises
`tenacity.RetryError`.  `op k` is the outcome the operation would produce
at attempt `k`, `times k` is the clock at attempt `k`; the third component
counts actual invocations of the operation.  `fuel` is an upper bound on
the remaining attempts, used only for termination. -/
def ip_attempts (maxFailures : Nat) (resetSecs : ℚ) (maxRetries : Nat)
    (op : Nat → OpOutcome) (times : Nat → ℚ) :
    Nat → Nat → CBState → Nat → Except RetryExc Unit × CBState × Nat
  | 0, _, s, inv => (Except.error RetryExc.retryError, s, inv)
  | fuel + 1, attempt, s, inv =>
      let st := CircuitBreaker_execute maxFailures resetSecs (times attempt) (op attempt) s
      let inv2 := if st.2.2 then inv + 1 else inv
      match st.1 with
      | Except.ok _ => (Except.ok (), st.2.1, inv2)
      | Except.error k =>
          if k = ErrKind.retryable then
            if maxRetries ≤ attempt then (Except.error RetryExc.retryError, st.2.1, inv2)
            else ip_attempts maxFailures resetSecs maxRetries op times fuel (attempt + 1) st.2.1 inv2
          else (Except.error (RetryExc.exc k), st.2.1, inv2)

/-- `IrelandPayCRMSyncManager._execute_with_resilience`
(`src/lib/irelandpay_crm_sync.py` lines 240-286): run the tenacity loop;
`except RetryError` yields the failure dict
`"Operation failed after {MAX_RETRIES} retries"`, any other escaped
exception yields `"Unexpected error during operation"`.  Returns the
result, the final breaker state, and the number of times the operation was
invoked. -/
def ip_execute_with_resilience (maxFailures : Nat) (resetSecs : ℚ)
    (maxRetries : Nat) (op : Nat → OpOutcome) (times : Nat → ℚ)
    (s : CBState) : WrapResult × CBState × Nat :=
  match ip_attempts maxFailures resetSecs maxRetries op times (maxRetries + 1) 1 s 0 with
  | (Except.ok _, s2, inv) => (WrapResult.ok, s2, inv)
  | (Except.error RetryExc.retryError, s2, inv) =>
      (WrapResult.failure
        ⟨false, "Operation failed after " ++ toString maxRetries ++ " retries", "RetryError"⟩,
        s2, inv)
  | (Except.error (RetryExc.exc _), s2, inv) =>
      (WrapResult.failure ⟨false, "Unexpected error during operation", "exception"⟩, s2, inv)

/-- The tenacity loop of `_retryable_operation` inside
`IRISCRMSyncManager._execute_with_resilience` (`src/lib/iriscrm_sync.py`
lines 259-288), decorated with `stop=stop_after_attempt(MAX_RETRIES)`,
`retry=retry_if_exception_type(RetryableError)`, `reraise=True`.  The body
invokes the operation directly (no per-attempt circuit check) and on ANY
exception — `FatalError` included — calls `circuit_breaker.record_failure()`;
fatal errors then propagate unretried, retryable and unexpected errors
(the latter re-wrapped as `RetryableError`) are retried, and with
`reraise=True` exhaustion re-raises the last `RetryableError` instead of
`tenacity.RetryError`. -/
def iris_attempts (maxFailures : Nat) (maxRetries : Nat)
    (op : Nat → OpOutcome) (times : Nat → ℚ) :
    Nat → Nat → CBState → Nat → Except RetryExc Unit × CBState × Nat
  | 0, _, s, inv => (Except.error (RetryExc.exc ErrKind.retryable), s, inv)
  | fuel + 1, attempt, s, inv =>
      match op attempt with
      | OpOutcome.ok => (Except.ok (), s, inv + 1)
      | OpOutcome.raise k =>
          let s2 := record_failure maxFailures (times attempt) s
          if k = ErrKind.fatal then (Except.error (RetryExc.exc ErrKind.fatal), s2, inv + 1)
          else
            if maxRetries ≤ attempt then
              (Except.error (RetryExc.exc ErrKind.retryable), s2, inv + 1)
            else iris_attempts maxFailures maxRetries op times fuel (attempt + 1) s2 (inv + 1)

/-- `IRISCRMSyncManager._execute_with_resilience` (`src/lib/iriscrm_sync.py`
lines 228-321): if the circuit is open at entry, return the
`circuit_open` failure dict without invoking the operation; otherwise run
the retry loop; on success call `record_success`; `except FatalError`
yields `"IRIS API request invalid"`; `except Exception` (which, because of
`reraise=True`, is also the branch taken when retries are exhausted)
yields `"Unexpected error occurred"`; the dead `except RetryError` branch
would yield `"IRIS API unavailable after multiple retry attempts"`. -/
def iris_execute_with_resilience (maxFailures : Nat) (resetSecs : ℚ)
    (maxRetries : Nat) (op : Nat → OpOutcome) (times : Nat → ℚ)
    (s : CBState) : WrapResult × CBState × Nat :=
  let chk := iris_is_open resetSecs (times 0) s
  if chk.1 then
    (WrapResult.failure ⟨false, "API currently unavailable due to repeated failures", "circuit_open"⟩,
      chk.2, 0)
  else
    match iris_attempts maxFailures maxRetries op times (maxRetries + 1) 1 chk.2 0 with
    | (Except.ok _, s2, inv) => (WrapResult.ok, record_success s2, inv)
    | (Except.error RetryExc.retryError, s2, inv) =>
        (WrapResult.failure
          ⟨false, "IRIS API unavailable after multiple retry attempts", "last attempt"⟩, s2, inv)
    | (Except.error (RetryExc.exc k), s2, inv) =>
        if k = ErrKind.fatal then
          (WrapResult.failure ⟨false, "IRIS API request invalid", "fatal"⟩, s2, inv)
        else
          (WrapResult.failure ⟨false, "Unexpected error occurred", "exception"⟩, s2, inv)

end CRMSync

namespace TxClient

/-- Outcome of the `_post_rpc` call performed by a `TransactionClient`
method (`src/supabase/functions/sync-iriscrm/transaction_client.py`):
the HTTP request either raises or returns a JSON value, here the boolean
result of the commit/rollback server function. -/
inductive RpcOutcome
  | raises
  | ok (b : Bool)
  deriving DecidableEq, Repr

/-- `TransactionClient` state: the single field the control flow depends
on, `self.transaction_id` (`None` when no transaction is active). -/
structure TransactionClient where
  transaction_id : Option String
  deriving DecidableEq, Repr

/-- `TransactionClient.start_transaction` (lines 50-75): call the
`start_sync_transaction` RPC (here already resolved to the returned id)
and store the id. -/
def start_transaction (rpcResult : String) (_c : TransactionClient) :
    TransactionClient × String :=
  (⟨some rpcResult⟩, rpcResult)

/-- `TransactionClient.commit_transaction` (lines 77-104): raise
`ValueError` when no transaction is active; otherwise call the
`commit_sync_transaction` RPC and clear `transaction_id` only when the RPC
returned `True`.  `Except.error` models a raised exception. -/
def commit_transaction (rpc : RpcOutcome) (c : TransactionClient) :
    Except String (Bool × TransactionClient) :=
  match c.transaction_id with
  | none => Except.error "No active transaction to commit"
  | some _ =>
      match rpc with
      | RpcOutcome.raises => Except.error "RPC request failed"
      | RpcOutcome.ok b =>
          if b then Except.ok (true, ⟨none⟩) else Except.ok (false, c)

/-- `TransactionClient.rollback_transaction` (lines 106-133): raise
`ValueError` when no transaction is active; otherwise call the
`rollback_sync_transaction` RPC and clear `transaction_id` only when the
RPC returned `True`. -/
def rollback_transaction (rpc : RpcOutcome) (c : TransactionClient) :
    Except String (Bool × TransactionClient) :=
  match c.transaction_id with
  | none => Except.error "No active transaction to rollback"
  | some _ =>
      match rpc with
      | RpcOutcome.raises => Except.error "RPC request failed"
      | RpcOutcome.ok b =>
          if b then Except.ok (true, ⟨none⟩) else Except.ok (false, c)

/-- Observable outcome of `TransactionClient.__exit__`:
`rollbackInvokedOn` records the transaction id `rollback_transaction` was
called on (if any); `result` is `Except.error` when the rollback RPC
itself raised (that exception propagates out of `__exit__`), otherwise
the final client state paired with the value returned by `__exit__`
(`True` would suppress the body's exception). -/
structure ExitOutcome where
  rollbackInvokedOn : Option String
  result : Except String (TransactionClient × Bool)
  deriving Repr

/-- `TransactionClient.__exit__` (lines 203-211): if `transaction_id` is
still set — no explicit commit (or successful rollback) cleared it — call
`rollback_transaction`; in every non-raising path return `False`.  The
body's exception value only feeds the rollback reason string and is not
modelled. -/
def context_exit (rpc : RpcOutcome) (c : TransactionClient) : ExitOutcome :=
  match c.transaction_id with
  | none => ⟨none, Except.ok (c, false)⟩
  | some tx =>
      match rollback_transaction rpc c with
      | Except.error e => ⟨some tx, Except.error e⟩
      | Except.ok (_, c2) => ⟨some tx, Except.ok (c2, false)⟩

end TxClient

namespace EdgeCRM

/-- The end-of-run transaction decision of `IrelandPayCRMSync.sync_merchants`
(`src/supabase/functions/sync-irelandpay-crm/iriscrm_sync.py` lines
317-327): once all pages and batches are processed, roll back when
`results["merchants_failed"] > results["total_merchants"] * 0.1`, else
commit.  The Python comparison is on floats; for integer counts it agrees
with the exact rational comparison used here, since the rounding error of
`total * 0.1` is far smaller than the distance from `total / 10` to the
next integer and never rounds below `total / 10`. -/
def sync_merchants_tx_status (total_merchants merchants_failed : Nat) : String :=
  if (total_merchants : ℚ) * (1 / 10) < (merchants_failed : ℚ) then "rolled_back"
  else "committed"

/-- The identical decision at the end of
`IrelandPayCRMSync.sync_residuals_with_transaction` (same file, lines
484-494): roll back when `residuals_failed > total_residuals * 0.1`, else
commit. -/
def sync_residuals_tx_status (total_residuals residuals_failed : Nat) : String :=
  if (total_residuals : ℚ) * (1 / 10) < (residuals_failed : ℚ) then "rolled_back"
  else "committed"

/-- The two record families started by `sync_all`. -/
inductive SyncStep
  | merchants
  | residuals
  deriving DecidableEq, Repr

/-- `IrelandPayCRMSync.sync_all`
(`src/supabase/functions/sync-irelandpay-crm/iriscrm_sync.py` lines
517-577), abstracted over the `transaction_status` fields the two
sub-syncs report: it always runs `sync_merchants` first; if that reports
`"rolled_back"` it returns (marking the run failed) WITHOUT starting
`sync_residuals`; otherwise it runs `sync_residuals` and the run fails if
either family rolled back.  Returns the ordered list of sub-syncs started
and the `success` flag. -/
def sync_all (mStatus rStatus : Option String) : List SyncStep × Bool :=
  if mStatus = some "rolled_back" then ([SyncStep.merchants], false)
  else
    if mStatus = some "rolled_back" ∨ rStatus = some "rolled_back" then
      ([SyncStep.merchants, SyncStep.residuals], false)
    else ([SyncStep.merchants, SyncStep.residuals], true)

end EdgeCRM

namespace EdgeIris

/-- `IRISCRMSync.sync_all` (`src/supabase/functions/sync-iriscrm/iriscrm_sync.py`
lines 415-439): this variant uses no transactions at all (its sub-syncs
write row by row and never report a `transaction_status`), and it
unconditionally runs `sync_merchants` first and `sync_residuals` second. -/
def iris_sync_all_steps : List EdgeCRM.SyncStep :=
  [EdgeCRM.SyncStep.merchants, EdgeCRM.SyncStep.residuals]

end EdgeIris

namespace IncSync

/-- A JSON record from the CRM API / the sink, as manipulated by
`src/scripts/sync/incremental_sync.py`: a field-name → value dictionary,
modelled as an association list (field values abstracted as strings). -/
abbrev Rec := List (String × String)

/-- The volatile fields popped from the copy of the record in
`IncrementalSync._generate_record_hash` (lines 117-120). -/
def volatile_fields : List String :=
  ["created_at", "updated_at", "last_sync_at", "last_modified_at", "hash_value"]

/-- Key order used by `json.dumps(record_copy, sort_keys=True)`. -/
def keyLE (a b : String × String) : Prop := a.1 ≤ b.1

instance : DecidableRel keyLE := fun a b => inferInstanceAs (Decidable (a.1 ≤ b.1))

instance : IsTotal (String × String) keyLE := ⟨fun a b => le_total a.1 b.1⟩

instance : IsTrans (String × String) keyLE := ⟨fun _ _ _ hab hbc => le_trans hab hbc⟩

/-- Strict version of `keyLE`, holding between distinct-key fields of a
well-formed (duplicate-free) record. -/
def keyLT (a b : String × String) : Prop := a.1 < b.1

instance : IsAntisymm (String × String) keyLT :=
  ⟨fun _ _ h1 h2 => absurd h2 (lt_asymm h1)⟩

/-- The field filter of `_generate_record_hash`: keep a field exactly when
its name is not one of the popped volatile fields. -/
def nonvolatile (kv : String × String) : Bool := decide (kv.1 ∉ volatile_fields)

/-- The canonical serialization built inside
`IncrementalSync._generate_record_hash` (lines 107-124): drop the volatile
fields, then serialize with keys sorted (`sort_keys=True`), so the result
depends only on the non-volatile field/value set. -/
def canonicalize (r : Rec) : Rec :=
  List.insertionSort keyLE (r.filter nonvolatile)

/-- `IncrementalSync._generate_record_hash`: SHA-256 of the canonical
serialization.  `sha` stands for the (deterministic) composition
`hashlib.sha256(json.dumps(..).encode()).hexdigest()`; every theorem below
holds for an arbitrary such function. -/
def generate_record_hash (sha : Rec → String) (r : Rec) : String :=
  sha (canonicalize r)

/-- Python dict assignment `record[k] = v`: replace the value when the key
is present, append the binding otherwise. -/
def setField (r : Rec) (k v : String) : Rec :=
  if (r.map Prod.fst).contains k then
    r.map fun kv => if kv.1 = k then (k, v) else kv
  else r ++ [(k, v)]

/-- Python `str(record.get(field))`: missing fields stringify to "None". -/
def strOfOpt : Option String → String
  | none => "None"
  | some s => s

/-- The mutation applied to a record before it is appended to
`records_to_upsert` in `IncrementalSync._apply_changes` (lines 242-259):
`record['hash_value'] = new_hash; record['last_modified_at'] = now`. -/
def decorate (sha : Rec → String) (nowStr : String) (record : Rec) : Rec :=
  setField (setField record "hash_value" (generate_record_hash sha record))
    "last_modified_at" nowStr

/-- The write decision of `_apply_changes` for one fetched record: write
it when it is new to the sink, or when its recomputed hash differs from
the stored `hash_value` of the existing row. -/
def should_write (sha : Rec → String) (idField : String)
    (existing : String → Option Rec) (record : Rec) : Bool :=
  match existing (strOfOpt (record.lookup idField)) with
  | some ex => decide (ex.lookup "hash_value" ≠ some (generate_record_hash sha record))
  | none => true

/-- The `records_to_upsert` list accumulated by the loop in
`IncrementalSync._apply_changes` (lines 236-259): `existing` is the
id-indexed view of the rows `_get_database_records_by_ids` returned. -/
def records_to_upsert (sha : Rec → String) (nowStr idField : String)
    (existing : String → Option Rec) : List Rec → List Rec
  | [] => []
  | record :: rest =>
      let tail := records_to_upsert sha nowStr idField existing rest
      match existing (strOfOpt (record.lookup idField)) with
      | some ex =>
          if ex.lookup "hash_value" ≠ some (generate_record_hash sha record) then
            decorate sha nowStr record :: tail
          else tail
      | none => decorate sha nowStr record :: tail

/-- Outcome of the API fetch inside
`IncrementalSync._get_changed_records_from_api` (lines 126-177).  NOTE: as
written the function body ALWAYS raises `NameError` before the HTTP call —
line 155 references `IRIS_CRM_BASE_URL`, but the module only defines
`IRELANDPAY_CRM_BASE_URL` — so `raises` is the only outcome the deployed
code can produce; `ok` models the intended HTTP response. -/
inductive FetchOutcome
  | raises
  | ok (apiData : List Rec)

/-- Deletion marker check `record.get('_deleted', False)` (truthy). -/
def is_deleted_record (r : Rec) : Bool := r.lookup "_deleted" = some "true"

/-- `IncrementalSync._get_changed_records_from_api`: on ANY exception in
the try block the error is swallowed and `([], set())` is returned
(lines 175-177); otherwise the response is partitioned into changed
records and deleted ids. -/
def get_changed_records_from_api (idField : String) :
    FetchOutcome → List Rec × List String
  | FetchOutcome.raises => ([], [])
  | FetchOutcome.ok apiData =>
      (apiData.filter fun r => !(is_deleted_record r),
       (apiData.filter is_deleted_record).map fun r => strOfOpt (r.lookup idField))

/-- Outcome of one sink operation (the batch upsert / the delete) inside
`IncrementalSync._apply_changes`. -/
inductive StepOutcome
  | raises
  | ok

/-- `IncrementalSync._apply_changes` (lines 211-279): the upsert and the
delete are each wrapped in their own try/except that swallows the error
and merely skips that contribution to `processed_count`. -/
def apply_changes (sha : Rec → String) (nowStr idField : String)
    (existing : String → Option Rec) (upsert del : StepOutcome)
    (changed : List Rec) (deleted : List String) : Nat :=
  let fromUpsert :=
    if changed.isEmpty then 0
    else
      match upsert with
      | StepOutcome.raises => 0
      | StepOutcome.ok => (records_to_upsert sha nowStr idField existing changed).length
  let fromDelete :=
    if deleted.isEmpty then 0
    else
      match del with
      | StepOutcome.raises => 0
      | StepOutcome.ok => deleted.length
  fromUpsert + fromDelete

/-- A call to `IncrementalSync._update_sync_watermark` (lines 81-105):
the watermark for this (data_type, scope) is set to `sync_time`
(defaulting to `datetime.utcnow()`, i.e. "now") with the given record
count. -/
inductive WatermarkEvent
  | advanced (t : ℚ) (count : Nat)
  deriving DecidableEq, Repr

/-- `IncrementalSync.sync_merchants` (lines 281-308): fetch the changed
records, apply them, then UNCONDITIONALLY call `_update_sync_watermark`
with the current time — there is no success check on either step.  Returns
`processed_count` and the watermark updates performed. -/
def inc_sync_merchants (fetch : FetchOutcome) (upsert del : StepOutcome)
    (sha : Rec → String) (existing : String → Option Rec)
    (now : ℚ) (nowStr : String) : Nat × List WatermarkEvent :=
  let cd := get_changed_records_from_api "merchant_id" fetch
  let n := apply_changes sha nowStr "merchant_id" existing upsert del cd.1 cd.2
  (n, [WatermarkEvent.advanced now n])

end IncSync

namespace QueueProc

/-- Constants of `src/supabase/functions/sync-irelandpay-crm/queue_processor.py`
(lines 32-34). -/
def QP_MAX_RETRIES : Nat := 5

/-- `BASE_RETRY_DELAY = 30` seconds. -/
def QP_BASE_RETRY_DELAY : ℚ := 30

/-- `MAX_RETRY_DELAY = 3600` seconds. -/
def QP_MAX_RETRY_DELAY : ℚ := 3600

/-- The persisted update a job-failure handler writes: the new `status`,
and the `retry_count` / `next_retry` / `completed_at` fields it sets
(`none` = the update leaves that column untouched). -/
structure JobUpdate where
  status : String
  retryCount : Option Nat
  nextRetry : Option ℚ
  completedAt : Option ℚ
  deriving DecidableEq, Repr

/-- `QueueProcessor._handle_job_failure` (lines 278-317), for a job whose
current `retry_count` is `retry_count`, at time `now`, with
`jitter = random.uniform(0, 10)`: at or beyond `MAX_RETRIES` the job is
marked `failed` (with `completed_at`, without touching `next_retry`);
otherwise it is marked `retrying`, `next_retry = now +
min(BASE_RETRY_DELAY * 2**retry_count + jitter, MAX_RETRY_DELAY)`, and a
second update persists `retry_count + 1`. -/
def handle_job_failure (retry_count : Nat) (jitter now : ℚ) : JobUpdate :=
  if QP_MAX_RETRIES ≤ retry_count then
    { status := "failed", retryCount := none, nextRetry := none, completedAt := some now }
  else
    { status := "retrying", retryCount := some (retry_count + 1),
      nextRetry := some (now + min (QP_BASE_RETRY_DELAY * 2 ^ retry_count + jitter) QP_MAX_RETRY_DELAY),
      completedAt := none }

end QueueProc

namespace SyncQ

/-- `SyncQueue.max_retries = 3`
(`src/supabase/functions/sync-iriscrm/sync_queue.py` line 20). -/
def SQ_MAX_RETRIES : Nat := 3

/-- `SyncQueue.base_delay = 5` seconds (line 21). -/
def SQ_BASE_DELAY : ℚ := 5

/-- The update computed by `SyncQueue.fail_job` (lines 236-263) for a job
with current `retry_count`, at time `now`: when `retry and retry_count <
max_retries` the job is marked `retrying` with `retry_count + 1` and
`delay_seconds = base_delay * 2 ** (retry_count + 1)` (the code first
increments the count, then uses the INCREMENTED count as the exponent; no
jitter, no cap); otherwise it is marked `failed` with `completed_at` and
without touching `next_retry`. -/
def fail_job_update (retry : Bool) (retry_count : Nat) (now : ℚ) : QueueProc.JobUpdate :=
  if retry = true ∧ retry_count < SQ_MAX_RETRIES then
    { status := "retrying", retryCount := some (retry_count + 1),
      nextRetry := some (now + SQ_BASE_DELAY * 2 ^ (retry_count + 1)),
      completedAt := none }
  else
    { status := "failed", retryCount := none, nextRetry := none, completedAt := some now }

/-- Comparison target stated from the specification's words, not from the
source: the `next_retry` delay formula the spec gives for a failing job,
`min(base_delay * 2^retry_count + jitter, max_delay)` (to be added to
`now`). -/
def spec_next_retry (base : ℚ) (retry_count : Nat) (jitter maxDelay : ℚ) : ℚ :=
  min (base * 2 ^ retry_count + jitter) maxDelay

/-- Outcome of one call into the Supabase store made by a `SyncQueue`
method: the call raises, or returns a response whose `error` field is set,
or returns data. -/
inductive DbOutcome (α : Type)
  | raises
  | errResp (msg : String)
  | okResp (data : α)

/-- A `sync_queue` row, reduced to the fields the queue methods read. -/
structure JobRow where
  id : String
  status : String
  retry_count : Nat
  deriving DecidableEq, Repr

/-- Run one store call inside a method body: `Except.error` models a
raised exception, otherwise the pair (error-field, data) of the response
(`dflt` stands for the `.get("data", ...)` default, unused on the error
path). -/
def db_exec {α : Type} (dflt : α) : DbOutcome α → Except String (Option String × α)
  | DbOutcome.raises => Except.error "db exception"
  | DbOutcome.errResp m => Except.ok (some m, dflt)
  | DbOutcome.okResp a => Except.ok (none, a)

/-- Body of `SyncQueue.enqueue` (lines 52-102) before the blanket
`except`: insert the row (`ins` is the outcome, its data the `id` fields
of the returned rows), return `None` on an error response, then read
`response.get("data", [{}])[0].get("id")` — indexing an empty list raises
`IndexError`. -/
def enqueue_body (ins : DbOutcome (List (Option String))) : Except String (Option String) := do
  let r ← db_exec [] ins
  match r.1 with
  | some _ => return none
  | none =>
      match r.2 with
      | [] => Except.error "IndexError"
      | idOpt :: _ => return idOpt

/-- `SyncQueue.enqueue`: the whole body is wrapped in
`try ... except Exception: return None`. -/
def enqueue (ins : DbOutcome (List (Option String))) : Option String :=
  match enqueue_body ins with
  | Except.ok v => v
  | Except.error _ => none

/-- Body of `SyncQueue.get_next_job` (lines 104-138): select the next
candidate row; `None` on an error response or when no job matched, else
the first row. -/
def get_next_job_body (sel : DbOutcome (List JobRow)) : Except String (Option JobRow) := do
  let r ← db_exec [] sel
  match r.1 with
  | some _ => return none
  | none =>
      match r.2 with
      | [] => return none
      | j :: _ => return some j

/-- `SyncQueue.get_next_job`, with its blanket `except Exception: return None`. -/
def get_next_job (sel : DbOutcome (List JobRow)) : Option JobRow :=
  match get_next_job_body sel with
  | Except.ok v => v
  | Except.error _ => none

/-- Body of `SyncQueue.mark_job_running` (lines 140-169): update the row;
`False` on an error response, else `True`. -/
def mark_job_running_body (upd : DbOutcome (List JobRow)) : Except String Bool := do
  let r ← db_exec [] upd
  match r.1 with
  | some _ => return false
  | none => return true

/-- `SyncQueue.mark_job_running`, with its blanket
`except Exception: return False`. -/
def mark_job_running (upd : DbOutcome (List JobRow)) : Bool :=
  match mark_job_running_body upd with
  | Except.ok v => v
  | Except.error _ => false

/-- Body of `SyncQueue.complete_job` (lines 171-205): same shape as
`mark_job_running`. -/
def complete_job_body (upd : DbOutcome (List JobRow)) : Except String Bool := do
  let r ← db_exec [] upd
  match r.1 with
  | some _ => return false
  | none => return true

/-- `SyncQueue.complete_job`, with its blanket `except Exception: return False`. -/
def complete_job (upd : DbOutcome (List JobRow)) : Bool :=
  match complete_job_body upd with
  | Except.ok v => v
  | Except.error _ => false

/-- Body of `SyncQueue.fail_job` (lines 207-291): read the current
`retry_count` (`sel` carries the list of matching rows, each reduced to
its `retry_count`), bail out `False` on an error response or a missing
job, compute the update via `fail_job_update`, then write it (`upd`),
bailing out `False` on an error response. -/
def fail_job_body (sel : DbOutcome (List Nat)) (upd : DbOutcome Unit)
    (retry : Bool) (now : ℚ) : Except String Bool := do
  let r ← db_exec [] sel
  match r.1 with
  | some _ => return false
  | none =>
      match r.2 with
      | [] => return false
      | current_retry_count :: _ =>
          let _update_data := fail_job_update retry current_retry_count now
          let r2 ← db_exec () upd
          match r2.1 with
          | some _ => return false
          | none => return true

/-- `SyncQueue.fail_job`, with its blanket `except Exception: return False`. -/
def fail_job (sel : DbOutcome (List Nat)) (upd : DbOutcome Unit)
    (retry : Bool) (now : ℚ) : Bool :=
  match fail_job_body sel upd retry now with
  | Except.ok v => v
  | Except.error _ => false

/-- Body of `SyncQueue.cancel_job` (lines 293-331): conditional update
restricted to `status in ("pending", "retrying")`; `False` on an error
response, `False` when no row was affected, else `True`. -/
def cancel_job_body (upd : DbOutcome (List JobRow)) : Except String Bool := do
  let r ← db_exec [] upd
  match r.1 with
  | some _ => return false
  | none =>
      match r.2 with
      | [] => return false
      | _ :: _ => return true

/-- `SyncQueue.cancel_job`, with its blanket `except Exception: return False`. -/
def cancel_job (upd : DbOutcome (List JobRow)) : Bool :=
  match cancel_job_body upd with
  | Except.ok v => v
  | Except.error _ => false

/-- Queue statistics returned by `SyncQueue.get_queue_stats`. -/
structure QueueStats where
  pending : Nat
  running : Nat
  retrying : Nat
  completed : Nat
  failed : Nat
  cancelled : Nat
  deriving DecidableEq, Repr

/-- The all-zero statistics dictionary returned on every error path of
`get_queue_stats` (lines 348-370). -/
def zeroStats : QueueStats := ⟨0, 0, 0, 0, 0, 0⟩

/-- Body of `SyncQueue.get_queue_stats` (lines 333-370): call the
`get_sync_queue_stats` RPC; zeroed statistics on an error response, else
the response data. -/
def get_queue_stats_body (rpc : DbOutcome QueueStats) : Except String QueueStats := do
  let r ← db_exec zeroStats rpc
  match r.1 with
  | some _ => return zeroStats
  | none => return r.2

/-- `SyncQueue.get_queue_stats`, with its blanket
`except Exception: return {zeroed}`. -/
def get_queue_stats (rpc : DbOutcome QueueStats) : QueueStats :=
  match get_queue_stats_body rpc with
  | Except.ok v => v
  | Except.error _ => zeroStats

end SyncQ

section Theorems

open CRMSync TxClient

/-- C1: the spec claims an always-retryably-failing operation is invoked
exactly `max_retries + 1 = 4` times.  Evaluating both embedded wrappers at
the failing input (defaults `MAX_RETRIES = 3`, fresh breaker, operation
raising `RetryableError` on every call): the iriscrm wrapper invokes the
operation only `MAX_RETRIES = 3` times — `stop_after_attempt(MAX_RETRIES)`
bounds TOTAL attempts — while the irelandpay wrapper invokes it exactly
ONCE, because its non-fatal handler's `cls.record_failure()` raises
`TypeError`, replacing the `RetryableError` with an exception tenacity
does not retry (and leaving the failure counter at 0).  As claimed, both
return a structured `{success: False, error, details}` dictionary instead
of raising. -/
theorem C1_retry_bound_code_eval :
    (ip_execute_with_resilience CIRCUIT_MAX_FAILURES CIRCUIT_RESET_SECONDS MAX_RETRIES
        (fun _ => OpOutcome.raise ErrKind.retryable) (fun _ => 1) cbInit).2.2 = 1 ∧
    (ip_execute_with_resilience CIRCUIT_MAX_FAILURES CIRCUIT_RESET_SECONDS MAX_RETRIES
        (fun _ => OpOutcome.raise ErrKind.retryable) (fun _ => 1) cbInit).1 =
      WrapResult.failure ⟨false, "Unexpected error during operation", "exception"⟩ ∧
    (ip_execute_with_resilience CIRCUIT_MAX_FAILURES CIRCUIT_RESET_SECONDS MAX_RETRIES
        (fun _ => OpOutcome.raise ErrKind.retryable) (fun _ => 1) cbInit).2.1.failures = 0 ∧
    (iris_execute_with_resilience CIRCUIT_MAX_FAILURES CIRCUIT_RESET_SECONDS MAX_RETRIES
        (fun _ => OpOutcome.raise ErrKind.retryable) (fun _ => 1) cbInit).2.2 = MAX_RETRIES ∧
    (iris_execute_with_resilience CIRCUIT_MAX_FAILURES CIRCUIT_RESET_SECONDS MAX_RETRIES
        (fun _ => OpOutcome.raise ErrKind.retryable) (fun _ => 1) cbInit).1 =
      WrapResult.failure ⟨false, "Unexpected error occurred", "exception"⟩ ∧
    ¬ (ip_execute_with_resilience CIRCUIT_MAX_FAILURES CIRCUIT_RESET_SECONDS MAX_RETRIES
        (fun _ => OpOutcome.raise ErrKind.retryable) (fun _ => 1) cbInit).2.2 = MAX_RETRIES + 1 ∧
    ¬ (iris_execute_with_resilience CIRCUIT_MAX_FAILURES CIRCUIT_RESET_SECONDS MAX_RETRIES
        (fun _ => OpOutcome.raise ErrKind.retryable) (fun _ => 1) cbInit).2.2 = MAX_RETRIES + 1 := by
  decide

/-- C2: an operation raising `FatalError` on its first call is indeed
invoked exactly once by both wrappers and a structured failure is
returned, and the irelandpay wrapper leaves the breaker's failure counter
unchanged; but the iriscrm wrapper's `_retryable_operation` calls
`circuit_breaker.record_failure()` in its `except FatalError` branch, so
there the counter grows from 0 to 1 — fatal errors ARE counted toward
opening that circuit, contradicting the claim (and the same file's own
"Don't count client errors (4xx) as circuit failures" design). -/
theorem C2_fatal_short_circuit_code_eval :
    (iris_execute_with_resilience CIRCUIT_MAX_FAILURES CIRCUIT_RESET_SECONDS MAX_RETRIES
        (fun _ => OpOutcome.raise ErrKind.fatal) (fun _ => 1) cbInit).2.2 = 1 ∧
    (iris_execute_with_resilience CIRCUIT_MAX_FAILURES CIRCUIT_RESET_SECONDS MAX_RETRIES
        (fun _ => OpOutcome.raise ErrKind.fatal) (fun _ => 1) cbInit).2.1.failures = 1 ∧
    (iris_execute_with_resilience CIRCUIT_MAX_FAILURES CIRCUIT_RESET_SECONDS MAX_RETRIES
        (fun _ => OpOutcome.raise ErrKind.fatal) (fun _ => 1) cbInit).1 =
      WrapResult.failure ⟨false, "IRIS API request invalid", "fatal"⟩ ∧
    (ip_execute_with_resilience CIRCUIT_MAX_FAILURES CIRCUIT_RESET_SECONDS MAX_RETRIES
        (fun _ => OpOutcome.raise ErrKind.fatal) (fun _ => 1) cbInit).2.2 = 1 ∧
    (ip_execute_with_resilience CIRCUIT_MAX_FAILURES CIRCUIT_RESET_SECONDS MAX_RETRIES
        (fun _ => OpOutcome.raise ErrKind.fatal) (fun _ => 1) cbInit).2.1.failures = 0 ∧
    (ip_execute_with_resilience CIRCUIT_MAX_FAILURES CIRCUIT_RESET_SECONDS MAX_RETRIES
        (fun _ => OpOutcome.raise ErrKind.fatal) (fun _ => 1) cbInit).1 =
      WrapResult.failure ⟨false, "Unexpected error during operation", "exception"⟩ := by
  decide

/-- The `failed > total * 0.1` comparison, for integer counts, is the
rational comparison `total < 10 * failed`. -/
theorem tenth_threshold_iff (total failed : Nat) :
    ((total : ℚ) * (1 / 10) < (failed : ℚ)) ↔ total < 10 * failed := by
  constructor
  · intro h
    have h10 : (total : ℚ) < 10 * (failed : ℚ) := by linarith
    exact_mod_cast h10
  · intro h
    have h10 : (total : ℚ) < 10 * (failed : ℚ) := by exact_mod_cast h
    linarith

/-- The if-expression shared by both end-of-run decisions, characterized
against the integer threshold. -/
theorem tx_decision_rolled_iff (total failed : Nat) :
    (if (total : ℚ) * (1 / 10) < (failed : ℚ) then "rolled_back" else "committed")
        = "rolled_back" ↔ total < 10 * failed := by
  rw [← tenth_threshold_iff total failed]
  by_cases h : (total : ℚ) * (1 / 10) < (failed : ℚ)
  · simp [h]
  · simp [h]

/-- Committed side of `tx_decision_rolled_iff`. -/
theorem tx_decision_committed_iff (total failed : Nat) :
    (if (total : ℚ) * (1 / 10) < (failed : ℚ) then "rolled_back" else "committed")
        = "committed" ↔ ¬ total < 10 * failed := by
  rw [← tenth_threshold_iff total failed]
  by_cases h : (total : ℚ) * (1 / 10) < (failed : ℚ)
  · simp [h]
  · simp [h]

/-- C3: at the end of a fully processed merchants (resp. residuals) sync
run, the transaction is rolled back exactly when the failed-record count
exceeds 10% of the total processed, and committed otherwise; in
particular 5 failures out of 100 commit and 15 failures out of 100 roll
back. -/
theorem C3_rollback_threshold :
    (∀ total failed : Nat,
        EdgeCRM.sync_merchants_tx_status total failed = "rolled_back" ↔ total < 10 * failed) ∧
    (∀ total failed : Nat,
        EdgeCRM.sync_merchants_tx_status total failed = "committed" ↔ ¬ total < 10 * failed) ∧
    (∀ total failed : Nat,
        EdgeCRM.sync_residuals_tx_status total failed = "rolled_back" ↔ total < 10 * failed) ∧
    (∀ total failed : Nat,
        EdgeCRM.sync_residuals_tx_status total failed = "committed" ↔ ¬ total < 10 * failed) ∧
    EdgeCRM.sync_merchants_tx_status 100 5 = "committed" ∧
    EdgeCRM.sync_merchants_tx_status 100 15 = "rolled_back" ∧
    EdgeCRM.sync_residuals_tx_status 100 5 = "committed" ∧
    EdgeCRM.sync_residuals_tx_status 100 15 = "rolled_back" := by
  refine ⟨fun total failed => tx_decision_rolled_iff total failed,
    fun total failed => tx_decision_committed_iff total failed,
    fun total failed => tx_decision_rolled_iff total failed,
    fun total failed => tx_decision_committed_iff total failed,
    ?_, ?_, ?_, ?_⟩
  · exact (tx_decision_committed_iff 100 5).mpr (by decide)
  · exact (tx_decision_rolled_iff 100 15).mpr (by decide)
  · exact (tx_decision_committed_iff 100 5).mpr (by decide)
  · exact (tx_decision_rolled_iff 100 15).mpr (by decide)

/-- C4: whenever `TransactionClient.__exit__` runs while a transaction is
still active (no explicit commit cleared `transaction_id`),
`rollback_transaction` is invoked on exactly that transaction, and in
every non-raising path `__exit__` returns `False`, so the body's exception
is never suppressed; a successful explicit `commit_transaction` clears the
active id, after which `__exit__` performs no rollback. -/
theorem C4_exit_rolls_back_uncommitted :
    (∀ (rpc : RpcOutcome) (c : TransactionClient) (tx : String),
        c.transaction_id = some tx → (context_exit rpc c).rollbackInvokedOn = some tx) ∧
    (∀ (rpc : RpcOutcome) (c : TransactionClient) (c2 : TransactionClient) (sup : Bool),
        (context_exit rpc c).result = Except.ok (c2, sup) → sup = false) ∧
    (∀ (c : TransactionClient) (tx : String), c.transaction_id = some tx →
        commit_transaction (RpcOutcome.ok true) c = Except.ok (true, ⟨none⟩)) ∧
    (∀ (rpc : RpcOutcome) (c : TransactionClient),
        c.transaction_id = none → (context_exit rpc c).rollbackInvokedOn = none) := by
  refine ⟨?_, ?_, ?_, ?_⟩
  · intro rpc c tx h
    cases c with
    | mk tid =>
        cases tid with
        | none => simp at h
        | some t =>
            cases h
            cases rpc with
            | raises => rfl
            | ok b => cases b <;> rfl
  · intro rpc c c2 sup h
    cases c with
    | mk tid =>
        cases tid with
        | none =>
            simp [context_exit] at h
            exact h.2
        | some t =>
            cases rpc with
            | raises => simp [context_exit, rollback_transaction] at h
            | ok b =>
                cases b <;> simp [context_exit, rollback_transaction] at h
                · exact h.2
                · exact h.2
  · intro c tx h
    cases c with
    | mk tid =>
        cases tid with
        | none => simp at h
        | some t => cases h; rfl
  · intro rpc c h
    cases c with
    | mk tid =>
        cases tid with
        | none => rfl
        | some t => simp at h

/-- C4 witness: concrete instantiation of every part of
`C4_exit_rolls_back_uncommitted`. -/
theorem C4_exit_rolls_back_uncommitted_witness :
    (context_exit (RpcOutcome.ok true) ⟨some "tx1"⟩).rollbackInvokedOn = some "tx1" ∧
    ((context_exit (RpcOutcome.ok true) ⟨some "tx1"⟩).result =
        Except.ok ((⟨none⟩ : TransactionClient), false) → false = false) ∧
    commit_transaction (RpcOutcome.ok true) ⟨some "tx1"⟩ =
      Except.ok (true, (⟨none⟩ : TransactionClient)) ∧
    (context_exit RpcOutcome.raises ⟨none⟩).rollbackInvokedOn = none :=
  ⟨C4_exit_rolls_back_uncommitted.1 (RpcOutcome.ok true) ⟨some "tx1"⟩ "tx1" rfl,
   fun h => C4_exit_rolls_back_uncommitted.2.1 (RpcOutcome.ok true) ⟨some "tx1"⟩ ⟨none⟩ false h,
   C4_exit_rolls_back_uncommitted.2.2.1 ⟨some "tx1"⟩ "tx1" rfl,
   C4_exit_rolls_back_uncommitted.2.2.2 RpcOutcome.raises ⟨none⟩ rfl⟩

/-- C5 counterexample: `SyncQueue.fail_job` at current `retry_count = 2`
schedules a delay of `base_delay * 2^(2+1) = 40` seconds, which cannot be
written as the claim's `min(base_delay * 2^2 + jitter, max_delay)` for any
jitter in the repository's jitter range `[0, 10]` and any cap, since that
expression is at most `20 + 10 = 30`. -/
theorem C5_counterexample_syncqueue_delay :
    (SyncQ.fail_job_update true 2 0).nextRetry = some 40 ∧
    ∀ jitter maxDelay : ℚ, 0 ≤ jitter → jitter ≤ 10 →
      ¬ (SyncQ.fail_job_update true 2 0).nextRetry =
          some (0 + SyncQ.spec_next_retry SyncQ.SQ_BASE_DELAY 2 jitter maxDelay) := by
  have hval : (SyncQ.fail_job_update true 2 0).nextRetry = some 40 := by
    norm_num [SyncQ.fail_job_update, SyncQ.SQ_MAX_RETRIES, SyncQ.SQ_BASE_DELAY]
  refine ⟨hval, ?_⟩
  intro jitter maxDelay h0 h10 hEq
  rw [hval] at hEq
  have hmin : SyncQ.spec_next_retry SyncQ.SQ_BASE_DELAY 2 jitter maxDelay ≤
      SyncQ.SQ_BASE_DELAY * 2 ^ 2 + jitter := min_le_left _ _
  have hb : SyncQ.SQ_BASE_DELAY * 2 ^ 2 + jitter ≤ 30 := by
    norm_num [SyncQ.SQ_BASE_DELAY]
    linarith
  have h40 : (40 : ℚ) = 0 + SyncQ.spec_next_retry SyncQ.SQ_BASE_DELAY 2 jitter maxDelay :=
    Option.some.inj hEq
  linarith

/-- C5 amended: `QueueProcessor._handle_job_failure` implements the
claimed transitions exactly (status `retrying`, persisted count `r + 1`,
`next_retry = now + min(base_delay * 2^r + jitter, max_delay)`, strictly
above `now + base_delay * 2^r` minus the jitter bound 10, and permanent
`failed` with no `next_retry` once `r ≥ max_retries`), while
`SyncQueue.fail_job` makes the same status/count/permanent-failure
transitions but schedules `next_retry = now + base_delay * 2^(r+1)` — the
exponent is the incremented count, with no jitter and no cap (still
strictly later than `now + base_delay * 2^r`). -/
theorem C5_amended_job_retry_scheduling :
    (∀ (r : Nat) (jitter now : ℚ), r < QueueProc.QP_MAX_RETRIES → 0 ≤ jitter →
        QueueProc.handle_job_failure r jitter now =
          { status := "retrying", retryCount := some (r + 1),
            nextRetry := some (now + min (QueueProc.QP_BASE_RETRY_DELAY * 2 ^ r + jitter)
              QueueProc.QP_MAX_RETRY_DELAY),
            completedAt := none } ∧
        now + QueueProc.QP_BASE_RETRY_DELAY * 2 ^ r - 10 <
          now + min (QueueProc.QP_BASE_RETRY_DELAY * 2 ^ r + jitter)
            QueueProc.QP_MAX_RETRY_DELAY) ∧
    (∀ (r : Nat) (jitter now : ℚ), QueueProc.QP_MAX_RETRIES ≤ r →
        QueueProc.handle_job_failure r jitter now =
          { status := "failed", retryCount := none, nextRetry := none,
            completedAt := some now }) ∧
    (∀ (r : Nat) (now : ℚ), r < SyncQ.SQ_MAX_RETRIES →
        SyncQ.fail_job_update true r now =
          { status := "retrying", retryCount := some (r + 1),
            nextRetry := some (now + SyncQ.SQ_BASE_DELAY * 2 ^ (r + 1)),
            completedAt := none } ∧
        now + SyncQ.SQ_BASE_DELAY * 2 ^ r < now + SyncQ.SQ_BASE_DELAY * 2 ^ (r + 1)) ∧
    (∀ (r : Nat) (now : ℚ), SyncQ.SQ_MAX_RETRIES ≤ r →
        SyncQ.fail_job_update true r now =
          { status := "failed", retryCount := none, nextRetry := none,
            completedAt := some now }) := by
  refine ⟨?_, ?_, ?_, ?_⟩
  · intro r jitter now hr h0
    have hr4 : r ≤ 4 := by
      unfold QueueProc.QP_MAX_RETRIES at hr
      omega
    have hnot : ¬ QueueProc.QP_MAX_RETRIES ≤ r := by
      unfold QueueProc.QP_MAX_RETRIES
      omega
    have hpow : (2 : ℚ) ^ r ≤ 16 := by
      calc (2 : ℚ) ^ r ≤ 2 ^ 4 := pow_le_pow_right₀ (by norm_num) hr4
        _ = 16 := by norm_num
    refine ⟨?_, ?_⟩
    · unfold QueueProc.handle_job_failure
      rw [if_neg hnot]
    · rcases le_total (QueueProc.QP_BASE_RETRY_DELAY * 2 ^ r + jitter)
          QueueProc.QP_MAX_RETRY_DELAY with hle | hle
      · rw [min_eq_left hle]
        unfold QueueProc.QP_BASE_RETRY_DELAY
        linarith
      · rw [min_eq_right hle]
        unfold QueueProc.QP_BASE_RETRY_DELAY QueueProc.QP_MAX_RETRY_DELAY
        have h30 : (30 : ℚ) * 2 ^ r ≤ 480 := by nlinarith [hpow]
        linarith
  · intro r jitter now hr
    unfold QueueProc.handle_job_failure
    rw [if_pos hr]
  · intro r now hr
    refine ⟨?_, ?_⟩
    · unfold SyncQ.fail_job_update
      rw [if_pos ⟨rfl, hr⟩]
    · have hpos : (0 : ℚ) < 2 ^ r := by positivity
      have : (2 : ℚ) ^ (r + 1) = 2 * 2 ^ r := by ring
      unfold SyncQ.SQ_BASE_DELAY
      rw [this]
      linarith
  · intro r now hr
    unfold SyncQ.fail_job_update
    rw [if_neg ?_]
    rintro ⟨-, hlt⟩
    omega

/-- C5 witness: concrete instantiation of every part of
`C5_amended_job_retry_scheduling` (QueueProcessor at r = 1, jitter = 3,
now = 100; at r = 5; SyncQueue at r = 1 and r = 3, now = 100). -/
theorem C5_amended_job_retry_scheduling_witness :
    (QueueProc.handle_job_failure 1 3 100 =
        { status := "retrying", retryCount := some 2,
          nextRetry := some (100 + min (QueueProc.QP_BASE_RETRY_DELAY * 2 ^ 1 + 3)
            QueueProc.QP_MAX_RETRY_DELAY),
          completedAt := none } ∧
      100 + QueueProc.QP_BASE_RETRY_DELAY * 2 ^ 1 - 10 <
        100 + min (QueueProc.QP_BASE_RETRY_DELAY * 2 ^ 1 + 3) QueueProc.QP_MAX_RETRY_DELAY) ∧
    QueueProc.handle_job_failure 5 3 100 =
      { status := "failed", retryCount := none, nextRetry := none, completedAt := some 100 } ∧
    (SyncQ.fail_job_update true 1 100 =
        { status := "retrying", retryCount := some 2,
          nextRetry := some (100 + SyncQ.SQ_BASE_DELAY * 2 ^ 2), completedAt := none } ∧
      100 + SyncQ.SQ_BASE_DELAY * 2 ^ 1 < 100 + SyncQ.SQ_BASE_DELAY * 2 ^ 2) ∧
    SyncQ.fail_job_update true 3 100 =
      { status := "failed", retryCount := none, nextRetry := none, completedAt := some 100 } :=
  ⟨C5_amended_job_retry_scheduling.1 1 3 100 (by norm_num [QueueProc.QP_MAX_RETRIES])
      (by norm_num),
   C5_amended_job_retry_scheduling.2.1 5 3 100 (by norm_num [QueueProc.QP_MAX_RETRIES]),
   C5_amended_job_retry_scheduling.2.2.1 1 100 (by norm_num [SyncQ.SQ_MAX_RETRIES]),
   C5_amended_job_retry_scheduling.2.2.2 3 100 (by norm_num [SyncQ.SQ_MAX_RETRIES])⟩

/-- C6: `IncrementalSync.sync_merchants` calls `_update_sync_watermark`
(advancing the watermark to "now") UNCONDITIONALLY — also when the API
fetch raised (its exception is swallowed and an empty change set
returned), and also when the sink upsert raised (its exception is
swallowed and the record count merely drops to 0) while fetched records
remained unapplied — contradicting the claim that a run failing partway
does not advance the watermark. -/
theorem C6_watermark_advance_unconditional :
    (∀ (fetch : IncSync.FetchOutcome) (upsert del : IncSync.StepOutcome)
        (sha : IncSync.Rec → String) (existing : String → Option IncSync.Rec)
        (now : ℚ) (nowStr : String),
        ∃ n, (IncSync.inc_sync_merchants fetch upsert del sha existing now nowStr).2 =
          [IncSync.WatermarkEvent.advanced now n]) ∧
    (∀ (upsert del : IncSync.StepOutcome) (sha : IncSync.Rec → String)
        (existing : String → Option IncSync.Rec) (now : ℚ) (nowStr : String),
        (IncSync.inc_sync_merchants IncSync.FetchOutcome.raises upsert del sha existing
            now nowStr).2 = [IncSync.WatermarkEvent.advanced now 0]) ∧
    (∀ (sha : IncSync.Rec → String) (existing : String → Option IncSync.Rec)
        (now : ℚ) (nowStr : String),
        IncSync.inc_sync_merchants (IncSync.FetchOutcome.ok [[("merchant_id", "m1")]])
            IncSync.StepOutcome.raises IncSync.StepOutcome.ok sha existing now nowStr =
          (0, [IncSync.WatermarkEvent.advanced now 0])) := by
  refine ⟨?_, ?_, ?_⟩
  · intro fetch upsert del sha existing now nowStr
    exact ⟨_, rfl⟩
  · intro upsert del sha existing now nowStr
    cases upsert <;> cases del <;> rfl
  · intro sha existing now nowStr
    rfl

/-- C8: in the transactional `IrelandPayCRMSync.sync_all` the sub-syncs
start in the order merchants then residuals, a merchants rollback
prevents the residuals sync from starting, and residuals only ever runs
after a non-rolled-back merchants sync; the non-transactional
`IRISCRMSync.sync_all` runs merchants then residuals with no transaction
to roll back. -/
theorem C8_sync_all_order_and_gating :
    (∀ m r : Option String, (EdgeCRM.sync_all m r).1 = [EdgeCRM.SyncStep.merchants] ∨
        (EdgeCRM.sync_all m r).1 =
          [EdgeCRM.SyncStep.merchants, EdgeCRM.SyncStep.residuals]) ∧
    (∀ m r : Option String, m = some "rolled_back" →
        EdgeCRM.SyncStep.residuals ∉ (EdgeCRM.sync_all m r).1) ∧
    (∀ m r : Option String, EdgeCRM.SyncStep.residuals ∈ (EdgeCRM.sync_all m r).1 →
        (EdgeCRM.sync_all m r).1 =
          [EdgeCRM.SyncStep.merchants, EdgeCRM.SyncStep.residuals] ∧
        m ≠ some "rolled_back") ∧
    EdgeIris.iris_sync_all_steps = [EdgeCRM.SyncStep.merchants, EdgeCRM.SyncStep.residuals] := by
  refine ⟨?_, ?_, ?_, rfl⟩
  · intro m r
    unfold EdgeCRM.sync_all
    split
    · exact Or.inl rfl
    · split <;> exact Or.inr rfl
  · intro m r hm
    subst hm
    unfold EdgeCRM.sync_all
    rw [if_pos rfl]
    simp
  · intro m r hmem
    by_cases hm : m = some "rolled_back"
    · subst hm
      unfold EdgeCRM.sync_all at hmem
      rw [if_pos rfl] at hmem
      simp at hmem
    · refine ⟨?_, hm⟩
      unfold EdgeCRM.sync_all
      rw [if_neg hm]
      split <;> rfl

/-- C8 witness: concrete instantiation of every part of
`C8_sync_all_order_and_gating`. -/
theorem C8_sync_all_order_and_gating_witness :
    ((EdgeCRM.sync_all none none).1 = [EdgeCRM.SyncStep.merchants] ∨
      (EdgeCRM.sync_all none none).1 =
        [EdgeCRM.SyncStep.merchants, EdgeCRM.SyncStep.residuals]) ∧
    EdgeCRM.SyncStep.residuals ∉ (EdgeCRM.sync_all (some "rolled_back") (some "committed")).1 ∧
    ((EdgeCRM.sync_all (some "committed") (some "committed")).1 =
        [EdgeCRM.SyncStep.merchants, EdgeCRM.SyncStep.residuals] ∧
      some "committed" ≠ some "rolled_back") :=
  ⟨C8_sync_all_order_and_gating.1 none none,
   C8_sync_all_order_and_gating.2.1 (some "rolled_back") (some "committed") rfl,
   C8_sync_all_order_and_gating.2.2.1 (some "committed") (some "committed") (by decide)⟩

/-- C10: every public `SyncQueue` operation wraps its whole body in a
blanket `except Exception` handler, so a raising store call or an error
response is signalled only through the return value: `None` for
`enqueue`/`get_next_job`, `False` for `mark_job_running`, `complete_job`,
`fail_job`, `cancel_job`, and zeroed statistics for `get_queue_stats`;
even the `IndexError` on an empty insert response inside `enqueue` is
caught. -/
theorem C10_queue_ops_error_signalling :
    SyncQ.enqueue SyncQ.DbOutcome.raises = none ∧
    (∀ m : String, SyncQ.enqueue (SyncQ.DbOutcome.errResp m) = none) ∧
    SyncQ.enqueue (SyncQ.DbOutcome.okResp []) = none ∧
    SyncQ.get_next_job SyncQ.DbOutcome.raises = none ∧
    (∀ m : String, SyncQ.get_next_job (SyncQ.DbOutcome.errResp m) = none) ∧
    SyncQ.get_next_job (SyncQ.DbOutcome.okResp []) = none ∧
    SyncQ.mark_job_running SyncQ.DbOutcome.raises = false ∧
    (∀ m : String, SyncQ.mark_job_running (SyncQ.DbOutcome.errResp m) = false) ∧
    SyncQ.complete_job SyncQ.DbOutcome.raises = false ∧
    (∀ m : String, SyncQ.complete_job (SyncQ.DbOutcome.errResp m) = false) ∧
    (∀ (upd : SyncQ.DbOutcome Unit) (retry : Bool) (now : ℚ),
        SyncQ.fail_job SyncQ.DbOutcome.raises upd retry now = false) ∧
    (∀ (m : String) (upd : SyncQ.DbOutcome Unit) (retry : Bool) (now : ℚ),
        SyncQ.fail_job (SyncQ.DbOutcome.errResp m) upd retry now = false) ∧
    (∀ (data : List Nat) (retry : Bool) (now : ℚ),
        SyncQ.fail_job (SyncQ.DbOutcome.okResp data) SyncQ.DbOutcome.raises retry now = false) ∧
    SyncQ.cancel_job SyncQ.DbOutcome.raises = false ∧
    (∀ m : String, SyncQ.cancel_job (SyncQ.DbOutcome.errResp m) = false) ∧
    SyncQ.cancel_job (SyncQ.DbOutcome.okResp []) = false ∧
    SyncQ.get_queue_stats SyncQ.DbOutcome.raises = SyncQ.zeroStats ∧
    (∀ m : String, SyncQ.get_queue_stats (SyncQ.DbOutcome.errResp m) = SyncQ.zeroStats) := by
  refine ⟨rfl, fun m => rfl, rfl, rfl, fun m => rfl, rfl, rfl, fun m => rfl, rfl,
    fun m => rfl, fun upd retry now => ?_, fun m upd retry now => rfl,
    fun data retry now => ?_, rfl, fun m => rfl, rfl, rfl, fun m => rfl⟩
  · cases upd <;> rfl
  · cases data <;> rfl

/-- Reachability helper: an open reachable breaker always carries a last
failure timestamp (only `record_failure` opens the circuit, and it sets
the timestamp; no operation clears it). -/
theorem cb_open_reachable_has_failure_time {s : CBState} (h : CBReachable s)
    (ho : s.isOpen = true) : ∃ lf : ℚ, s.lastFailureTime = some lf := by
  induction h with
  | init => simp [cbInit] at ho
  | fail t s hs ih =>
      refine ⟨t, ?_⟩
      by_cases hcnt : CIRCUIT_MAX_FAILURES ≤ s.failures + 1 <;>
        simp [record_failure, hcnt]
  | succ s hs ih => exact ih ho
  | check t s hs ih =>
      rcases s with ⟨f, o, l⟩
      cases l with
      | none => exact ih ho
      | some lf =>
          simp only [iris_is_open] at ho ⊢
          split at ho
          · simp at ho
          · next h =>
              rw [if_neg h]
              exact ⟨lf, rfl⟩

/-- C7 counterexample: after five failures (opening the circuit) followed
by one success, the breaker is a reachable state with `is_open` still
true while `consecutive_failures = 0 < max_failures` — `record_success`
resets the count but never closes the circuit — so the claimed invariant
"`is_open` is true only while `consecutive_failures >= max_failures`"
fails; `is_open()` checked 9 seconds after the last failure still
returns true. -/
theorem C7_counterexample_open_without_failures :
    CBReachable cbAfterFiveFailuresThenSuccess ∧
    cbAfterFiveFailuresThenSuccess = (⟨0, true, some 1⟩ : CBState) ∧
    (iris_is_open CIRCUIT_RESET_SECONDS 10 cbAfterFiveFailuresThenSuccess).1 = true ∧
    cbAfterFiveFailuresThenSuccess.failures < CIRCUIT_MAX_FAILURES := by
  refine ⟨?_, rfl, ?_, ?_⟩
  · exact CBReachable.succ _
      (CBReachable.fail 1 _ (CBReachable.fail 1 _ (CBReachable.fail 1 _
        (CBReachable.fail 1 _ (CBReachable.fail 1 _ CBReachable.init)))))
  · show (iris_is_open CIRCUIT_RESET_SECONDS 10 ⟨0, true, some 1⟩).1 = true
    simp only [iris_is_open]
    split
    · next h =>
        exfalso
        have h2 := h.2
        norm_num [CIRCUIT_RESET_SECONDS] at h2
    · rfl
  · show (0 : Nat) < CIRCUIT_MAX_FAILURES
    norm_num [CIRCUIT_MAX_FAILURES]

/-- C7 amended: a call to `is_open()` on an open breaker at least
`reset_timeout` after the last failure (strictly after, and only for a
nonzero stored timestamp, in the `irelandpay_crm_sync` variant) clears the
open flag and the failure count and returns false; any other call returns
the current open flag without modifying the state; and on reachable states
an `is_open()` call returning true implies less than `reset_timeout` has
elapsed since the recorded last failure — but NOT that
`consecutive_failures >= max_failures`, since `record_success` resets the
count without closing the circuit. -/
theorem C7_amended_is_open_behavior :
    (∀ (t : ℚ) (s : CBState) (lf : ℚ), s.lastFailureTime = some lf → s.isOpen = true →
        CIRCUIT_RESET_SECONDS ≤ t - lf →
        iris_is_open CIRCUIT_RESET_SECONDS t s =
          (false, { s with isOpen := false, failures := 0 })) ∧
    (∀ (t : ℚ) (s : CBState) (lf : ℚ), s.lastFailureTime = some lf →
        t - lf < CIRCUIT_RESET_SECONDS →
        iris_is_open CIRCUIT_RESET_SECONDS t s = (s.isOpen, s)) ∧
    (∀ (t : ℚ) (s : CBState), s.isOpen = false →
        iris_is_open CIRCUIT_RESET_SECONDS t s = (false, s)) ∧
    (∀ (t : ℚ) (s : CBState), CBReachable s →
        (iris_is_open CIRCUIT_RESET_SECONDS t s).1 = true →
        ∃ lf, s.lastFailureTime = some lf ∧ t - lf < CIRCUIT_RESET_SECONDS) ∧
    (∀ (t : ℚ) (s : CBState) (lf : ℚ), s.lastFailureTime = some lf → lf ≠ 0 →
        s.isOpen = true → CIRCUIT_RESET_SECONDS < t - lf →
        ip_is_open CIRCUIT_RESET_SECONDS t s =
          (false, { s with isOpen := false, failures := 0 })) ∧
    (∀ (t : ℚ) (s : CBState) (lf : ℚ), s.lastFailureTime = some lf →
        t - lf ≤ CIRCUIT_RESET_SECONDS →
        ip_is_open CIRCUIT_RESET_SECONDS t s = (s.isOpen, s)) := by
  refine ⟨?_, ?_, ?_, ?_, ?_, ?_⟩
  · intro t s lf hl ho hge
    rcases s with ⟨f, o, l⟩
    cases hl
    change o = true at ho
    subst ho
    simp only [iris_is_open]
    split
    · rfl
    · next h => exact absurd ⟨by trivial, hge⟩ h
  · intro t s lf hl hlt
    rcases s with ⟨f, o, l⟩
    cases hl
    simp only [iris_is_open]
    split
    · next h => exact absurd hlt (not_lt.mpr h.2)
    · rfl
  · intro t s ho
    rcases s with ⟨f, o, l⟩
    change o = false at ho
    subst ho
    cases l with
    | none => rfl
    | some lf =>
        simp only [iris_is_open]
        split
        · next h => simp at h
        · rfl
  · intro t s hreach hres
    rcases s with ⟨f, o, l⟩
    cases l with
    | none =>
        simp only [iris_is_open] at hres
        obtain ⟨lf, hlf⟩ := cb_open_reachable_has_failure_time hreach hres
        cases hlf
    | some lf =>
        simp only [iris_is_open] at hres
        split at hres
        · simp at hres
        · next h =>
            refine ⟨lf, rfl, ?_⟩
            by_contra hge
            exact h ⟨hres, not_lt.mp hge⟩
  · intro t s lf hl h0 ho hgt
    rcases s with ⟨f, o, l⟩
    cases hl
    change o = true at ho
    subst ho
    simp only [ip_is_open]
    split
    · next h => simp at h
    · split
      · rfl
      · next h => exact absurd ⟨h0, hgt⟩ h
  · intro t s lf hl hle
    rcases s with ⟨f, o, l⟩
    cases hl
    cases o with
    | false => rfl
    | true =>
        simp only [ip_is_open]
        split
        · next h => simp at h
        · split
          · next h => exact absurd hle (not_le.mpr h.2)
          · rfl

/-- C7 witness: concrete instantiation of every part of
`C7_amended_is_open_behavior` (default reset timeout 60; an open breaker
with last failure at time 1, checked at times 100 and 30). -/
theorem C7_amended_is_open_behavior_witness :
    iris_is_open CIRCUIT_RESET_SECONDS 100 ⟨5, true, some 1⟩ = (false, ⟨0, false, some 1⟩) ∧
    iris_is_open CIRCUIT_RESET_SECONDS 30 ⟨5, true, some 1⟩ = (true, ⟨5, true, some 1⟩) ∧
    iris_is_open CIRCUIT_RESET_SECONDS 5 cbInit = (false, cbInit) ∧
    (∃ lf, (⟨5, true, some 1⟩ : CBState).lastFailureTime = some lf ∧
      (30 : ℚ) - lf < CIRCUIT_RESET_SECONDS) ∧
    ip_is_open CIRCUIT_RESET_SECONDS 100 ⟨5, true, some 1⟩ = (false, ⟨0, false, some 1⟩) ∧
    ip_is_open CIRCUIT_RESET_SECONDS 30 ⟨5, true, some 1⟩ = (true, ⟨5, true, some 1⟩) := by
  refine ⟨C7_amended_is_open_behavior.1 100 ⟨5, true, some 1⟩ 1 rfl rfl
      (by norm_num [CIRCUIT_RESET_SECONDS]),
    C7_amended_is_open_behavior.2.1 30 ⟨5, true, some 1⟩ 1 rfl
      (by norm_num [CIRCUIT_RESET_SECONDS]),
    C7_amended_is_open_behavior.2.2.1 5 cbInit rfl,
    C7_amended_is_open_behavior.2.2.2.1 30 ⟨5, true, some 1⟩ ?_ ?_,
    C7_amended_is_open_behavior.2.2.2.2.1 100 ⟨5, true, some 1⟩ 1 rfl (by norm_num) rfl
      (by norm_num [CIRCUIT_RESET_SECONDS]),
    C7_amended_is_open_behavior.2.2.2.2.2 30 ⟨5, true, some 1⟩ 1 rfl
      (by norm_num [CIRCUIT_RESET_SECONDS])⟩
  · exact CBReachable.fail 1 _ (CBReachable.fail 1 _ (CBReachable.fail 1 _
      (CBReachable.fail 1 _ (CBReachable.fail 1 _ CBReachable.init))))
  · simp only [iris_is_open]
    split
    · next h =>
        exfalso
        have h2 := h.2
        norm_num [CIRCUIT_RESET_SECONDS] at h2
    · rfl

/-- Fields named by a volatile key are dropped by the hash filter. -/
theorem nonvolatile_eq_false {k : String} (v : String)
    (hk : k ∈ IncSync.volatile_fields) : IncSync.nonvolatile (k, v) = false := by
  simp [IncSync.nonvolatile, hk]

/-- Overwriting the value stored at a volatile key does not change the
filtered field list. -/
theorem filter_map_replace (k v : String) (hk : k ∈ IncSync.volatile_fields)
    (r : IncSync.Rec) :
    (r.map fun kv => if kv.1 = k then (k, v) else kv).filter IncSync.nonvolatile =
      r.filter IncSync.nonvolatile := by
  induction r with
  | nil => rfl
  | cons a tl ih =>
      by_cases ha : a.1 = k
      · have h1 : (if a.1 = k then (k, v) else a) = (k, v) := if_pos ha
        have h2 : IncSync.nonvolatile a = false := by
          rcases a with ⟨a1, a2⟩
          simp only at ha
          subst ha
          exact nonvolatile_eq_false a2 hk
        simp [h1, h2, nonvolatile_eq_false v hk, ih]
      · have h1 : (if a.1 = k then (k, v) else a) = a := if_neg ha
        simp [h1, List.filter_cons, ih]

/-- Appending a binding for a volatile key does not change the filtered
field list. -/
theorem filter_append_volatile (k v : String) (hk : k ∈ IncSync.volatile_fields)
    (r : IncSync.Rec) :
    (r ++ [(k, v)]).filter IncSync.nonvolatile = r.filter IncSync.nonvolatile := by
  simp [List.filter_append, nonvolatile_eq_false v hk]

/-- Setting any volatile field (changing an existing one or adding a new
one) leaves the canonical serialization unchanged. -/
theorem canonicalize_setField (r : IncSync.Rec) (k v : String)
    (hk : k ∈ IncSync.volatile_fields) :
    IncSync.canonicalize (IncSync.setField r k v) = IncSync.canonicalize r := by
  unfold IncSync.canonicalize IncSync.setField
  split
  · exact congrArg (List.insertionSort IncSync.keyLE) (filter_map_replace k v hk r)
  · exact congrArg (List.insertionSort IncSync.keyLE) (filter_append_volatile k v hk r)

/-- Reordering the fields of a duplicate-free record leaves the canonical
serialization unchanged: sorting by the (distinct) keys yields a unique
strictly-sorted list. -/
theorem canonicalize_perm_eq (r1 r2 : IncSync.Rec) (hp : r1.Perm r2)
    (hnd : (r1.map Prod.fst).Nodup) :
    IncSync.canonicalize r1 = IncSync.canonicalize r2 := by
  unfold IncSync.canonicalize
  have hpf : (r1.filter IncSync.nonvolatile).Perm (r2.filter IncSync.nonvolatile) :=
    hp.filter _
  have hnd1 : ((r1.filter IncSync.nonvolatile).map Prod.fst).Nodup :=
    List.Nodup.sublist ((List.filter_sublist r1).map Prod.fst) hnd
  have hnd2 : ((r2.filter IncSync.nonvolatile).map Prod.fst).Nodup :=
    ((hpf.map Prod.fst).nodup_iff).mp hnd1
  have hperm : (List.insertionSort IncSync.keyLE (r1.filter IncSync.nonvolatile)).Perm
      (List.insertionSort IncSync.keyLE (r2.filter IncSync.nonvolatile)) :=
    (List.perm_insertionSort IncSync.keyLE _).trans
      (hpf.trans (List.perm_insertionSort IncSync.keyLE _).symm)
  have hsortnd1 :
      ((List.insertionSort IncSync.keyLE (r1.filter IncSync.nonvolatile)).map
        Prod.fst).Nodup :=
    (((List.perm_insertionSort IncSync.keyLE _).map Prod.fst).nodup_iff).mpr hnd1
  have hsortnd2 :
      ((List.insertionSort IncSync.keyLE (r2.filter IncSync.nonvolatile)).map
        Prod.fst).Nodup :=
    (((List.perm_insertionSort IncSync.keyLE _).map Prod.fst).nodup_iff).mpr hnd2
  have hst1 : List.Sorted IncSync.keyLT
      (List.insertionSort IncSync.keyLE (r1.filter IncSync.nonvolatile)) := by
    have hle : List.Pairwise IncSync.keyLE
        (List.insertionSort IncSync.keyLE (r1.filter IncSync.nonvolatile)) :=
      List.sorted_insertionSort IncSync.keyLE _
    have hne : (List.insertionSort IncSync.keyLE (r1.filter IncSync.nonvolatile)).Pairwise
        (fun a b => a.1 ≠ b.1) := List.pairwise_map.mp hsortnd1
    exact List.Pairwise.imp (fun h => lt_of_le_of_ne h.1 h.2) (List.Pairwise.and hle hne)
  have hst2 : List.Sorted IncSync.keyLT
      (List.insertionSort IncSync.keyLE (r2.filter IncSync.nonvolatile)) := by
    have hle : List.Pairwise IncSync.keyLE
        (List.insertionSort IncSync.keyLE (r2.filter IncSync.nonvolatile)) :=
      List.sorted_insertionSort IncSync.keyLE _
    have hne : (List.insertionSort IncSync.keyLE (r2.filter IncSync.nonvolatile)).Pairwise
        (fun a b => a.1 ≠ b.1) := List.pairwise_map.mp hsortnd2
    exact List.Pairwise.imp (fun h => lt_of_le_of_ne h.1 h.2) (List.Pairwise.and hle hne)
  exact List.eq_of_perm_of_sorted hperm hst1 hst2

/-- The upsert list built by `_apply_changes` is exactly the changed
records passing the write decision, each decorated with its new hash and
modification timestamp, in input order. -/
theorem records_to_upsert_eq (sha : IncSync.Rec → String) (nowStr idField : String)
    (existing : String → Option IncSync.Rec) (changed : List IncSync.Rec) :
    IncSync.records_to_upsert sha nowStr idField existing changed =
      (changed.filter (IncSync.should_write sha idField existing)).map
        (IncSync.decorate sha nowStr) := by
  induction changed with
  | nil => rfl
  | cons record rest ih =>
      simp only [IncSync.records_to_upsert]
      cases hex : existing (IncSync.strOfOpt (record.lookup idField)) with
      | some ex =>
          by_cases hne : ex.lookup "hash_value" ≠
              some (IncSync.generate_record_hash sha record)
          · have hsw : IncSync.should_write sha idField existing record = true := by
              simp [IncSync.should_write, hex, hne]
            simp [hne, hsw, List.filter_cons, ih]
          · have heq : ex.lookup "hash_value" =
                some (IncSync.generate_record_hash sha record) := not_not.mp hne
            have hsw : IncSync.should_write sha idField existing record = false := by
              simp [IncSync.should_write, hex, heq]
            simp [heq, hsw, List.filter_cons, ih]
      | none =>
          have hsw : IncSync.should_write sha idField existing record = true := by
            simp [IncSync.should_write, hex]
          simp [List.filter_cons, hsw, ih]

/-- C9: `_generate_record_hash` is field-order independent (any
permutation of a duplicate-free record hashes identically, for an
arbitrary digest function) and volatile-field independent (setting any of
the excluded fields leaves the hash unchanged), and `_apply_changes`
upserts exactly the fetched records that are new or whose recomputed hash
differs from the stored `hash_value`. -/
theorem C9_hash_and_change_detection :
    (∀ (sha : IncSync.Rec → String) (r1 r2 : IncSync.Rec), r1.Perm r2 →
        (r1.map Prod.fst).Nodup →
        IncSync.generate_record_hash sha r1 = IncSync.generate_record_hash sha r2) ∧
    (∀ (sha : IncSync.Rec → String) (r : IncSync.Rec) (k v : String),
        k ∈ IncSync.volatile_fields →
        IncSync.generate_record_hash sha (IncSync.setField r k v) =
          IncSync.generate_record_hash sha r) ∧
    (∀ (sha : IncSync.Rec → String) (nowStr idField : String)
        (existing : String → Option IncSync.Rec) (changed : List IncSync.Rec),
        IncSync.records_to_upsert sha nowStr idField existing changed =
          (changed.filter (IncSync.should_write sha idField existing)).map
            (IncSync.decorate sha nowStr)) :=
  ⟨fun sha r1 r2 hp hnd => congrArg sha (canonicalize_perm_eq r1 r2 hp hnd),
   fun sha r k v hk => congrArg sha (canonicalize_setField r k v hk),
   records_to_upsert_eq⟩

/-- C9 witness: concrete instantiation of every part of
`C9_hash_and_change_detection`. -/
theorem C9_hash_and_change_detection_witness :
    IncSync.generate_record_hash (fun _ => "h") [("a", "1"), ("b", "2")] =
      IncSync.generate_record_hash (fun _ => "h") [("b", "2"), ("a", "1")] ∧
    IncSync.generate_record_hash (fun _ => "h")
        (IncSync.setField [("a", "1")] "updated_at" "2030-01-01") =
      IncSync.generate_record_hash (fun _ => "h") [("a", "1")] ∧
    IncSync.records_to_upsert (fun _ => "h") "now" "id" (fun _ => none)
        [[("id", "1")]] =
      (([[("id", "1")]] : List IncSync.Rec).filter
          (IncSync.should_write (fun _ => "h") "id" (fun _ => none))).map
        (IncSync.decorate (fun _ => "h") "now") :=
  ⟨C9_hash_and_change_detection.1 (fun _ => "h") [("a", "1"), ("b", "2")]
      [("b", "2"), ("a", "1")] (List.Perm.swap ("b", "2") ("a", "1") []) (by decide),
   C9_hash_and_change_detection.2.1 (fun _ => "h") [("a", "1")] "updated_at" "2030-01-01"
      (by decide),
   C9_hash_and_change_detection.2.2 (fun _ => "h") "now" "id" (fun _ => none)
      [[("id", "1")]]⟩

end Theorems
